import Mathlib

/-
  Shallow embedding of the matebabe JVM core (src/deserialize.rs, src/parse.rs,
  src/run.rs) for checking the frozen claims C1..C10.

  Conventions used throughout:
  * A 32-bit operand-stack cell or local-variable slot is a Nat below 2^32
    (the Rust code stores u32 cells and reinterprets them at each use site).
  * Operand stacks and frame stacks are Lists whose HEAD is the TOP of the
    corresponding Rust Vec.
  * Rust panics (integer overflow, division by zero, todo and similar) and
    Err returns are both modelled as the error case of the result type;
    where the distinction matters the Rust panic or error message is kept.
-/

/-- Result type mirroring the Rust Result values (and panics) of the VM. -/
inductive VmResult (α : Type) where
  | ok (value : α)
  | error (msg : String)
deriving DecidableEq

/-- Reinterpretation of a u32 cell as an i32, as done by
read_i32 over to_be_bytes in run.rs. -/
def toI32 (c : Nat) : Int :=
  if c < 2147483648 then (c : Int) else (c : Int) - 4294967296

/-- Reinterpretation of an i32 result as a u32 cell, as done by
read_u32 over to_be_bytes in run.rs. -/
def ofI32 (x : Int) : Nat := (x % 4294967296).toNat

/-- Reinterpretation of a u64 bit pattern as an i64 (read_i64 over to_be_bytes). -/
def toI64 (c : Nat) : Int :=
  if c < 9223372036854775808 then (c : Int) else (c : Int) - 18446744073709551616

/-- Reinterpretation of an i64 as a u64 bit pattern (to_be_bytes). -/
def ofI64 (x : Int) : Nat := (x % 18446744073709551616).toNat

/-- The recombination of the two 32-bit cells of a category-2 value used by
run.rs (ladd 0x61, lmul 0x69, lshl 0x79, lushr 0x7d, dadd 0x63):
the source computes (part1 shifted left by 16) bitwise-or part2,
with part1 the first-pushed (high) cell and part2 the low cell. -/
def recombineLong (part1 part2 : Nat) : Nat := Nat.lor (part1 * 65536) part2

/-- Splitting a 64-bit result pattern back into cells and pushing them:
run.rs reads the high u32 then the low u32 of to_be_bytes and pushes
high first, low second, so the low cell ends on top of the stack. -/
def pushLong (bits : Nat) (rest : List Nat) : List Nat :=
  bits % 4294967296 :: bits / 4294967296 :: rest

/-- idiv, opcode 0x6c (run.rs lines 2164-2182): pops value2 then value1,
reinterprets both as i32 and divides with the native Rust division
(truncating toward zero), pushing the reinterpreted result.  The native
division panics when the divisor is zero and when dividing the minimal
i32 by -1; both aborts are modelled as none. -/
def idiv (stack : List Nat) : Option (List Nat) :=
  match stack with
  | value2 :: value1 :: rest =>
    let a := toI32 value1
    let b := toI32 value2
    if b = 0 then none
    else if a = -2147483648 ∧ b = -1 then none
    else some (ofI32 (Int.tdiv a b) :: rest)
  | _ => none

/-- lload (0x16) and lload_n (0x1e-0x21), run.rs lines 1700-1727: the source
reads local_variables at the SAME index for both halves (value_part1 and
value_part2 are both local_variables[index]) and pushes the two copies.
Indexing out of range panics, modelled as none. -/
def lload (index : Nat) (local_variables : List Nat) (stack : List Nat) :
    Option (List Nat) :=
  match local_variables.get? index with
  | some v => some (v :: v :: stack)
  | none => none

/-- lstore (0x37) and lstore_n (0x3f-0x42), run.rs lines 1843-1889: pops
value_part2 then value_part1 and writes them to slots index and index+1. -/
def lstore (index : Nat) (local_variables : List Nat) (stack : List Nat) :
    Option (List Nat × List Nat) :=
  match stack with
  | value_part2 :: value_part1 :: rest =>
    if index + 1 < local_variables.length then
      some ((local_variables.set index value_part1).set (index + 1) value_part2, rest)
    else none
  | _ => none

/-- ladd, opcode 0x61 (run.rs lines 2015-2051): pops the four cells of two
category-2 operands, recombines each pair with recombineLong (the source
shifts the high word left by only 16 bits), adds as i64, and pushes the
two cells of the result.  The recombined values are below 2^48, so the
i64 addition cannot overflow. -/
def ladd (stack : List Nat) : Option (List Nat) :=
  match stack with
  | value2_part2 :: value2_part1 :: value1_part2 :: value1_part1 :: rest =>
    let value1 := toI64 (recombineLong value1_part1 value1_part2)
    let value2 := toI64 (recombineLong value2_part1 value2_part2)
    some (pushLong (ofI64 (value1 + value2)) rest)
  | _ => none

/-- The shift-family fragment of the interpreter dispatch (run.rs):
opcodes 0x78 ishl, 0x79 lshl, 0x7a ishr, 0x7c iushr, 0x7d lushr, acting on
the operand stack.  Opcode 0x7b (lshr) has no arm in the interpreter match
and falls to the default arm (run.rs line 3793), an unknown-instruction
error.  ishl and ishr apply the native Rust shift to the raw popped count
(defined only for counts below 32, aborting otherwise); lshl reinterprets
the count as i32 and requires 0 <= count < 64; iushr uses wrapping_shr on
the u32 cell (count masked to 5 bits); lushr uses wrapping_shr on the
recombined i64 (count masked to 6 bits, shifting arithmetically). -/
def execShiftOp (op : Nat) (stack : List Nat) : VmResult (List Nat) :=
  if op = 120 then
    match stack with
    | value2 :: value1 :: rest =>
      if value2 < 32 then .ok (ofI32 (toI32 value1 * 2 ^ value2) :: rest)
      else .error "attempt to shift left with overflow"
    | _ => .error "no item on the operand_stack"
  else if op = 121 then
    match stack with
    | value2cell :: value1_part2 :: value1_part1 :: rest =>
      let value1 := toI64 (recombineLong value1_part1 value1_part2)
      let value2 := toI32 value2cell
      if 0 ≤ value2 ∧ value2 < 64 then
        .ok (pushLong (ofI64 (value1 * 2 ^ value2.toNat)) rest)
      else .error "attempt to shift left with overflow"
    | _ => .error "no item on the operand_stack"
  else if op = 122 then
    match stack with
    | value2 :: value1 :: rest =>
      if value2 < 32 then .ok (ofI32 (Int.fdiv (toI32 value1) (2 ^ value2)) :: rest)
      else .error "attempt to shift right with overflow"
    | _ => .error "no item on the operand_stack"
  else if op = 124 then
    match stack with
    | value2 :: value1 :: rest => .ok (value1 / 2 ^ (value2 % 32) :: rest)
    | _ => .error "no item on the operand_stack"
  else if op = 125 then
    match stack with
    | value2cell :: value1_part2 :: value1_part1 :: rest =>
      let value1 := toI64 (recombineLong value1_part1 value1_part2)
      .ok (pushLong (ofI64 (Int.fdiv value1 (2 ^ (value2cell % 64)))) rest)
    | _ => .error "no item on the operand_stack"
  else .error "unknown instruction"

/-- The subset of the resolved constant-pool variants of parse.rs
(enum Constant) that the embedded operations inspect.  The as_class
accessor returns the ClassInfo name for the Class variant only; every
other variant (modelled by the collapsed other constructor) returns
none from as_class, exactly as in the source. -/
inductive Constant where
  | classInfo (name : String)
  | utf8 (s : String)
  | placeholder
deriving DecidableEq

/-- Constant::as_class from parse.rs: some name for the Class variant. -/
def constantAsClass : Constant → Option String
  | .classInfo name => some name
  | _ => none

/-- FieldType from parse.rs. -/
inductive FieldType where
  | integer
  | boolean
  | byte
  | char
  | longInteger
  | float
  | double
  | short
  | classInstance (name : String)
  | array (element : FieldType)
deriving DecidableEq

/-- FieldType::as_class_instance from parse.rs. -/
def fieldTypeAsClassInstance : FieldType → Option String
  | .classInstance name => some name
  | _ => none

/-- parse_field_type from parse.rs over the character list of a descriptor;
the unreachable arm for an unknown leading character is modelled as none. -/
def parse_field_type : List Char → Option FieldType
  | [] => none
  | c :: rest =>
    if c = 'L' then some (.classInstance (String.mk (rest.takeWhile (fun ch => ch ≠ ';'))))
    else if c = '[' then (parse_field_type rest).map .array
    else if c = 'I' then some .integer
    else if c = 'J' then some .longInteger
    else if c = 'Z' then some .boolean
    else if c = 'B' then some .byte
    else if c = 'C' then some .char
    else if c = 'S' then some .short
    else if c = 'D' then some .double
    else if c = 'F' then some .float
    else none

/-- ExceptionTableItem from parse.rs (all fields usize). -/
structure ExceptionTableItem where
  start_pc : Nat
  end_pc : Nat
  handler_pc : Nat
  catch_type : Nat
deriving DecidableEq

/-- A heap object (HeapItem in run.rs): a type-descriptor string and the
flat cell vector. -/
structure HeapItem where
  field_descriptor : String
  data : List Nat
deriving DecidableEq

/-- The components of a Frame (run.rs) that the embedded operations use.
The constant pool is the resolved pool the frame weakly references;
the weak-reference upgrade never fails while the class registry retains
every class, so it is embedded as the pool itself. -/
structure Frame where
  local_variables : List Nat := []
  operand_stack : List Nat := []
  constant_pool : List Constant := []
  exception_table : Option (List ExceptionTableItem) := none
  instruction_counter : Nat := 0
deriving DecidableEq

/-- Thread state (run.rs): the frame stack (head is the current frame,
matching the last element of the Rust Vec) and the is_throwing flag. -/
structure Thread where
  jvm_stack : List Frame
  is_throwing : Bool
deriving DecidableEq

/-- The handler-search loop inside Thread::handle_exception (run.rs lines
1400-1425), walking the exception table in order.  For each item the
source FIRST reads the pool entry at index catch_type - 1 and requires a
Class constant (a catch_type of 0 underflows the usize subtraction, a
panic; a missing entry or a non-Class entry is an error), and only then
tests start_pc <= instruction_counter < end_pc together with string
equality of the Class name and the exception class name.  Returns the
handler_pc of the first fully matching item, or none when the walk ends. -/
def findHandlerLoop (pool : List Constant) (instruction_counter : Nat)
    (field_info_name : String) : List ExceptionTableItem → VmResult (Option Nat)
  | [] => .ok none
  | item :: rest =>
    if item.catch_type = 0 then .error "attempt to subtract with overflow"
    else
      match (pool.get? (item.catch_type - 1)).map constantAsClass with
      | none => .error "no constant"
      | some none => .error "not a class_info"
      | some (some class_info_name) =>
        if item.start_pc ≤ instruction_counter ∧ instruction_counter < item.end_pc
            ∧ class_info_name = field_info_name then
          .ok (some item.handler_pc)
        else findHandlerLoop pool instruction_counter field_info_name rest

/-- Thread::handle_exception (run.rs lines 1379-1441).  Looks up the
exception object on the heap, extracts its class name from the type
descriptor, and walks the current frame exception table with
findHandlerLoop.  On a match the instruction counter is set to the
handler_pc and the object reference is pushed (is_throwing is NOT
modified by this branch).  On no match: with a single frame the thread
run ends with an error; otherwise is_throwing is set, the reference is
pushed onto the invoker frame operand stack, and the top frame is popped. -/
def handle_exception (t : Thread) (heap : List HeapItem) (objectref : Nat) :
    VmResult Thread :=
  match t.jvm_stack with
  | [] => .error "no item on jvm stack"
  | current_frame :: restFrames =>
    match heap.get? objectref with
    | none => .error "no ref"
    | some heap_item =>
      match parse_field_type heap_item.field_descriptor.data with
      | none => .error "failed to get first char of field_type"
      | some ft =>
        match fieldTypeAsClassInstance ft with
        | none => .error "not a class?"
        | some field_info_name =>
          match current_frame.exception_table with
          | none => .error "called unwrap on a None value"
          | some table =>
            match findHandlerLoop current_frame.constant_pool
                current_frame.instruction_counter field_info_name table with
            | .error e => .error e
            | .ok (some handler_pc) =>
              .ok { t with jvm_stack :=
                { current_frame with
                  instruction_counter := handler_pc,
                  operand_stack := objectref :: current_frame.operand_stack } :: restFrames }
            | .ok none =>
              match restFrames with
              | [] => .error "nowhere to go to :("
              | invoker :: below =>
                .ok { jvm_stack :=
                        { invoker with
                          operand_stack := objectref :: invoker.operand_stack } :: below,
                      is_throwing := true }

/-- The throw dispatch at the top of the interpreter loop (run.rs lines
1444-1457): when is_throwing is set, the loop pops the top of the current
frame operand stack and hands exactly that reference to handle_exception.
Returns the popped reference and the thread state handle_exception then
runs on; returns none when is_throwing is not set. -/
def runLoopThrowDispatch (t : Thread) : VmResult (Option (Nat × Thread)) :=
  match t.jvm_stack with
  | [] => .error "no item on jvm stack"
  | current_frame :: restFrames =>
    if t.is_throwing then
      match current_frame.operand_stack with
      | [] => .error "nothing to pop here"
      | objectref :: stackRest =>
        .ok (some (objectref,
          { t with jvm_stack :=
              { current_frame with operand_stack := stackRest } :: restFrames }))
    else .ok none

/-- Outcome of one dispatch of a return-family opcode: the loop continues
with a new frame stack, or breaks out (thread terminates), or the thread
run aborts with an error. -/
inductive StepOutcome where
  | next (frames : List Frame)
  | halt (frames : List Frame)
  | fail (msg : String)
deriving DecidableEq

/-- The return-family fragment of the interpreter dispatch (run.rs lines
2883-2949): 0xad lreturn, 0xac ireturn, 0xb0 areturn, 0xaf dreturn,
0xb1 return.  The value-returning arms pop the value cells from the
current frame, push them onto the frame at index len - 2 of the Rust Vec
(underflowing and panicking when the current frame is the only one) and
pop the current frame.  The 0xb1 arm breaks the interpreter loop when the
current frame is the only one, and otherwise just pops it.  Opcode 0xae
(freturn) has no arm anywhere in the interpreter match and falls to the
default unknown-instruction arm (run.rs line 3793). -/
def execReturnOp (op : Nat) (frames : List Frame) : StepOutcome :=
  match frames with
  | [] => .fail "no item on jvm stack"
  | current_frame :: restFrames =>
    if op = 173 ∨ op = 175 then
      match current_frame.operand_stack with
      | value_part2 :: value_part1 :: _ =>
        match restFrames with
        | invoker :: below =>
          .next ({ invoker with
                   operand_stack :=
                     value_part2 :: value_part1 :: invoker.operand_stack } :: below)
        | [] => .fail "attempt to subtract with overflow"
      | _ => .fail "no return value on operand stack"
    else if op = 172 ∨ op = 176 then
      match current_frame.operand_stack with
      | value :: _ =>
        match restFrames with
        | invoker :: below =>
          .next ({ invoker with
                   operand_stack := value :: invoker.operand_stack } :: below)
        | [] => .fail "attempt to subtract with overflow"
      | [] => .fail "no return value on operand stack"
    else if op = 177 then
      match restFrames with
      | [] => .halt frames
      | _ :: _ => .next restFrames
    else .fail "unknown instruction"

/-- Abstraction of the class-initialization state of GlobalMemory
(run.rs): which class names carry the initialized flag, plus a log of
every entry into a clinit method, in execution order. -/
structure InitState where
  initialized : List String
  clinit_log : List String
deriving DecidableEq

/-- GlobalMemory::init_class (run.rs lines 326-371) over the abstracted
state.  The function takes the sequence of ensure_class triggers that the
clinit body of each class performs (clinitCalls), since running a clinit
frame re-enters the lifecycle driver only through ensure_class; load and
link do not touch the initialized flag and do not run clinit methods.
Mirrors the source: an already-initialized class returns unchanged;
otherwise the initialized flag is set EAGERLY, the clinit entry is
logged, and the triggers of the clinit body run in order (each trigger
reaching init_class again through ensure_class).  The fuel argument
bounds the recursion depth that Rust leaves unbounded; every finite
execution of the source is covered by some fuel. -/
def init_class_model (clinitCalls : String → List String) :
    Nat → String → InitState → InitState
  | 0, _, s => s
  | fuel + 1, name, s =>
    if name ∈ s.initialized then s
    else
      let s1 : InitState := ⟨name :: s.initialized, s.clinit_log ++ [name]⟩
      (clinitCalls name).foldl
        (fun acc dep => init_class_model clinitCalls fuel dep acc) s1

/-- GlobalMemory::ensure_class (run.rs lines 138-154) over the abstracted
state: a class already present and initialized returns immediately; in
every other case the call reaches init_class, which re-checks the flag. -/
def ensure_class_model (clinitCalls : String → List String)
    (fuel : Nat) (name : String) (s : InitState) : InitState :=
  if name ∈ s.initialized then s
  else init_class_model clinitCalls fuel name s

/-- CPInfo from deserialize.rs: the structured constant-pool entries the
deserializer can produce.  The enum has no variant for Long, Float,
Double, InterfaceMethodref or MethodType entries. -/
inductive CPInfo where
  | constantUtf8Info (tag : Nat) (length : Nat) (bytes : List Nat)
  | constantIntegerInfo (tag : Nat) (bytes : Nat)
  | constantClassInfo (tag : Nat) (name_index : Nat)
  | constantStringInfo (tag : Nat) (string_index : Nat)
  | constantFieldRefInfo (tag : Nat) (class_index : Nat) (name_and_type_index : Nat)
  | constantMethodRefInfo (tag : Nat) (class_index : Nat) (name_and_type_index : Nat)
  | constantNameAndTypeInfo (tag : Nat) (name_index : Nat) (descriptor_index : Nat)
  | constantMethodHandleInfo (tag : Nat) (reference_kind : Nat) (reference_index : Nat)
  | constantInvokeDynamicInfo (tag : Nat) (bootstrap_method_attr_index : Nat)
      (name_and_type_index : Nat)
deriving DecidableEq

/-- read_u8 over the byte cursor: one byte and the remaining bytes. -/
def readU8 : List Nat → Option (Nat × List Nat)
  | [] => none
  | b :: rest => some (b, rest)

/-- big-endian read_u16 over the byte cursor. -/
def readU16 : List Nat → Option (Nat × List Nat)
  | b1 :: b2 :: rest => some (b1 * 256 + b2, rest)
  | _ => none

/-- big-endian read_u32 over the byte cursor. -/
def readU32 : List Nat → Option (Nat × List Nat)
  | b1 :: b2 :: b3 :: b4 :: rest =>
    some (((b1 * 256 + b2) * 256 + b3) * 256 + b4, rest)
  | _ => none

/-- deserialize_constant_pool (deserialize.rs lines 109-198): reads the tag
byte and the tag-specific payload.  Arms exist for tags 1, 3, 7, 8, 9,
10, 12, 15 and 18 only; every other tag (including 4 Float, 5 Long,
6 Double, 11 InterfaceMethodref, 16 MethodType) hits the todo panic,
modelled as none.  The Utf8 arm reads up to length bytes with a take
reader, which silently yields fewer bytes on a truncated buffer. -/
def deserialize_constant_pool (bytes : List Nat) : Option (CPInfo × List Nat) :=
  match readU8 bytes with
  | none => none
  | some (tag, r) =>
    if tag = 1 then
      match readU16 r with
      | none => none
      | some (length, r2) =>
        some (.constantUtf8Info tag length (r2.take length), r2.drop length)
    else if tag = 3 then
      (readU32 r).map (fun p => (.constantIntegerInfo tag p.1, p.2))
    else if tag = 7 then
      (readU16 r).map (fun p => (.constantClassInfo tag p.1, p.2))
    else if tag = 8 then
      (readU16 r).map (fun p => (.constantStringInfo tag p.1, p.2))
    else if tag = 9 then
      match readU16 r with
      | none => none
      | some (class_index, r2) =>
        (readU16 r2).map (fun p => (.constantFieldRefInfo tag class_index p.1, p.2))
    else if tag = 10 then
      match readU16 r with
      | none => none
      | some (class_index, r2) =>
        (readU16 r2).map (fun p => (.constantMethodRefInfo tag class_index p.1, p.2))
    else if tag = 12 then
      match readU16 r with
      | none => none
      | some (name_index, r2) =>
        (readU16 r2).map (fun p => (.constantNameAndTypeInfo tag name_index p.1, p.2))
    else if tag = 15 then
      match readU8 r with
      | none => none
      | some (reference_kind, r2) =>
        (readU16 r2).map (fun p => (.constantMethodHandleInfo tag reference_kind p.1, p.2))
    else if tag = 18 then
      match readU16 r with
      | none => none
      | some (bootstrap_method_attr_index, r2) =>
        (readU16 r2).map
          (fun p => (.constantInvokeDynamicInfo tag bootstrap_method_attr_index p.1, p.2))
    else none

/-- The constant-pool loop of deserialize_class_file (deserialize.rs lines
244-251): exactly count iterations (the source runs the loop
constant_pool_count - 1 times), each pushing ONE entry into the vector;
there is no slot skipping of any kind. -/
def deserializeConstantPoolList : Nat → List Nat → Option (List CPInfo × List Nat)
  | 0, bytes => some ([], bytes)
  | n + 1, bytes =>
    match deserialize_constant_pool bytes with
    | none => none
    | some (cp, rest) =>
      match deserializeConstantPoolList n rest with
      | none => none
      | some (cps, rest2) => some (cp :: cps, rest2)

/-- A parsed field as add_class consumes it: name, type and the static
access flag (parse.rs Field with its FieldDescriptor and access flags). -/
structure ParsedField where
  name : String
  field_type : FieldType
  is_static : Bool
deriving DecidableEq

/-- KlassField from run.rs (without the back-pointer to the parsed field). -/
structure KlassField where
  class_name : String
  field_name : String
  field_type : FieldType
  field_width : Nat
deriving DecidableEq

/-- The field loop of MethodArea::add_class (run.rs lines 462-500): walks
the parsed fields in declaration order, building the instance-field list
and the static-field list; LongInteger and Double fields get width 2 and
every other type width 1.  Returns (instance fields, static fields),
each in declaration order. -/
def layoutLoop (class_name : String) : List ParsedField → List KlassField × List KlassField
  | [] => ([], [])
  | f :: rest =>
    let width : Nat :=
      match f.field_type with
      | .longInteger => 2
      | .double => 2
      | _ => 1
    let klass_field : KlassField := ⟨class_name, f.name, f.field_type, width⟩
    let (fields, static_fields) := layoutLoop class_name rest
    if f.is_static then (fields, klass_field :: static_fields)
    else (klass_field :: fields, static_fields)

/-- The instance-field layout computed by MethodArea::add_class (run.rs
lines 456-520): the own non-static fields from the loop, with the
superclass layout (looked up in the registry when the parsed class has a
super_class) prepended verbatim. -/
def add_class_instance_fields (class_name : String) (parsed_fields : List ParsedField)
    (superFields : Option (List KlassField)) : List KlassField :=
  let fields := (layoutLoop class_name parsed_fields).1
  match superFields with
  | some parent_fields => parent_fields ++ fields
  | none => fields

/-- The java/lang/Double.doubleToRawLongBits native (run.rs lines
1067-1094): reads local slots 0 and 1 of the native frame and pushes them
unchanged onto the invoker operand stack, first slot 0, then slot 1. -/
def doubleToRawLongBits (local_variables : List Nat) (invoker_stack : List Nat) :
    Option (List Nat) :=
  match local_variables.get? 0, local_variables.get? 1 with
  | some double_part1, some double_part2 =>
    some (double_part2 :: double_part1 :: invoker_stack)
  | _, _ => none

/-- The java/lang/Double.longBitsToDouble native (run.rs lines 1095-1122):
identical cell-for-cell copy of local slots 0 and 1 onto the invoker
operand stack. -/
def longBitsToDouble (local_variables : List Nat) (invoker_stack : List Nat) :
    Option (List Nat) :=
  match local_variables.get? 0, local_variables.get? 1 with
  | some long_part1, some long_part2 =>
    some (long_part2 :: long_part1 :: invoker_stack)
  | _, _ => none

/-- The argument-popping loop of the invokestatic arm (run.rs lines
3366-3375): the source pops exactly ONE cell per parameter descriptor,
regardless of the category of the parameter (the comment in the source
itself flags this for doubles), and builds nargs by inserting each popped
cell at the front.  Returns nargs and the remaining caller stack. -/
def popNargs : Nat → List Nat → Option (List Nat × List Nat)
  | 0, stack => some ([], stack)
  | n + 1, stack =>
    match stack with
    | [] => none
    | narg :: rest =>
      match popNargs n rest with
      | none => none
      | some (nargs, rest2) => some (nargs ++ [narg], rest2)

/-- The local-variable vector of a freshly constructed frame after the
invokestatic argument copy (run.rs lines 113 and 3377-3382): Frame::new
fills local_variables with 20 zero cells and the invoke arm then writes
nargs into the leading slots, leaving every other slot zero. -/
def nativeFrameLocals (nargs : List Nat) : List Nat :=
  nargs ++ List.replicate (20 - nargs.length) 0

/-- invokestatic of a native method (run.rs lines 3335-3386 together with
the native dispatch at run.rs lines 1464-1469): pops one cell per
parameter descriptor into the locals of the native frame, runs the
native, which pushes its result onto the remaining caller stack. -/
def invokestaticNative (nparams : Nat)
    (native : List Nat → List Nat → Option (List Nat))
    (caller_stack : List Nat) : Option (List Nat) :=
  match popNargs nparams caller_stack with
  | none => none
  | some (nargs, rest) => native (nativeFrameLocals nargs) rest

/-- Specification-side matching predicate, written from the amended claim
wording for C1: an exception-table entry matches when the instruction
counter lies in the half-open range and the resolved pool constant at
index catch_type - 1 is a Class constant naming exactly the runtime class
of the exception object. -/
def claimEntryMatches (pool : List Constant) (instruction_counter : Nat)
    (exName : String) (item : ExceptionTableItem) : Bool :=
  decide (item.start_pc ≤ instruction_counter
    ∧ instruction_counter < item.end_pc
    ∧ (pool.get? (item.catch_type - 1)).bind constantAsClass = some exName)

/-
  Theorems.
-/

/-- The width computed by the add_class field loop agrees with the
width rule stated by the specification (2 for long and double, 1
otherwise). -/
theorem layoutLoop_width_eq (ft : FieldType) :
    (match ft with
      | FieldType.longInteger => 2
      | FieldType.double => 2
      | _ => (1 : Nat))
      = if ft = FieldType.longInteger ∨ ft = FieldType.double then 2 else 1 := by
  cases ft <;> simp

/-- The instance-field component of the add_class loop equals the
non-static parsed fields, in declaration order, mapped to KlassField
entries with the spec width rule. -/
theorem layoutLoop_fst_eq (class_name : String) :
    ∀ parsed_fields : List ParsedField,
      (layoutLoop class_name parsed_fields).1
        = (parsed_fields.filter (fun f => !f.is_static)).map
            (fun f => ⟨class_name, f.name, f.field_type,
              if f.field_type = FieldType.longInteger ∨ f.field_type = FieldType.double
              then 2 else 1⟩) := by
  intro parsed_fields
  induction parsed_fields with
  | nil => rfl
  | cons f rest ih =>
    simp only [layoutLoop, layoutLoop_width_eq]
    by_cases hs : f.is_static
    · simp [hs, ih]
    · simp [hs, ih]

/-- C9: for every class C whose superclass S is already registered, the
instance-field layout computed by MethodArea::add_class begins with the
instance-field layout of S verbatim, followed by the non-static declared
fields of C in declaration order, each with width 2 for long and double
fields and width 1 otherwise. -/
theorem add_class_layout_begins_with_super (class_name : String)
    (parsed_fields : List ParsedField) (super_layout : List KlassField) :
    add_class_instance_fields class_name parsed_fields (some super_layout)
      = super_layout
        ++ (parsed_fields.filter (fun f => !f.is_static)).map
            (fun f => ⟨class_name, f.name, f.field_type,
              if f.field_type = FieldType.longInteger ∨ f.field_type = FieldType.double
              then 2 else 1⟩) := by
  simp only [add_class_instance_fields, layoutLoop_fst_eq]

/-- C2: evaluation of the embedded idiv at the claimed boundary inputs:
dividing by zero aborts the VM (no ArithmeticException is raised), and
dividing the minimal i32 by -1 aborts instead of pushing the minimal
value; an uncontested division truncates toward zero. -/
theorem idiv_boundary_eval :
    idiv [0, 1] = none
    ∧ idiv [4294967295, 2147483648] = none
    ∧ idiv [4294967295, 2147483648] ≠ some [2147483648]
    ∧ idiv [2, 4294967289] = some [4294967293] := by decide

/-- C3: evaluation showing the category-2 cell conventions are broken:
lstore 0 writes the two popped cells to slots 0 and 1, but lload 0 then
pushes slot 0 twice (instead of slots 0 and 1), and ladd recombines a
cell pair (high = 1, low = 0) into 65536 (a 16-bit shift) instead of
2^32, so its result cells differ from the claimed ones. -/
theorem lload_ladd_divergence_eval :
    lstore 0 [0, 0] [1, 0] = some ([0, 1], [])
    ∧ lload 0 [0, 1] [] = some [0, 0]
    ∧ lload 0 [0, 1] [] ≠ some [1, 0]
    ∧ ladd [0, 0, 0, 1] = some [65536, 0]
    ∧ ladd [0, 0, 0, 1] ≠ some [0, 1] := by decide

/-- C10: evaluation of the real composition at the cell pair
(high 1, low 2).  The two java/lang/Double natives themselves are
cell-for-cell copies, but the invokestatic argument loop pops only ONE
cell for the single (D) or (J) parameter descriptor, so merely the low
word reaches local slot 0, slot 1 stays zero, and the high word is left
stranded on the caller stack: doubleToRawLongBits turns the stack
(2, 1) into (0, 2, 1), and chaining longBitsToDouble yields
(0, 0, 2, 1) instead of the starting cells (2, 1). -/
theorem double_bits_round_trip_broken :
    doubleToRawLongBits (nativeFrameLocals [2]) [1] = some [0, 2, 1]
    ∧ invokestaticNative 1 doubleToRawLongBits [2, 1] = some [0, 2, 1]
    ∧ (invokestaticNative 1 doubleToRawLongBits [2, 1]).bind
        (invokestaticNative 1 longBitsToDouble) = some [0, 0, 2, 1]
    ∧ (invokestaticNative 1 doubleToRawLongBits [2, 1]).bind
        (invokestaticNative 1 longBitsToDouble) ≠ some [2, 1] := by decide

/-- C6 counterexample: opcode 0x7b (lshr) is not implemented at all; the
dispatch falls to the unknown-instruction arm, so lshr neither masks its
shift count nor pushes any result (the claimed result for shifting the
long 2 right by 1 would be the cells of 1). -/
theorem lshr_unknown_instruction :
    execShiftOp 123 [1, 2, 0] = .error "unknown instruction"
    ∧ execShiftOp 123 [1, 2, 0] ≠ .ok [1, 0] := by decide

/-- C6 amended: iushr is total with its count masked to 5 bits, and lushr
is total with its count masked to 6 bits (an arithmetic shift of the
recombined i64); ishl and ishr push a result only for counts below 32 and
abort at 32 and above; lshl aborts for counts of 64 and above; lshr is
not implemented and always fails as an unknown instruction. -/
theorem shift_masking_amended :
    (∀ s v1 rest, execShiftOp 124 (s :: v1 :: rest) = .ok (v1 / 2 ^ (s % 32) :: rest))
    ∧ (∀ s p2 p1 rest, execShiftOp 125 (s :: p2 :: p1 :: rest)
        = .ok (pushLong (ofI64 (Int.fdiv (toI64 (recombineLong p1 p2)) (2 ^ (s % 64)))) rest))
    ∧ (∀ s v1 rest, s < 32 →
        execShiftOp 120 (s :: v1 :: rest) = .ok (ofI32 (toI32 v1 * 2 ^ s) :: rest))
    ∧ (∀ s v1 rest, 32 ≤ s →
        execShiftOp 120 (s :: v1 :: rest) = .error "attempt to shift left with overflow")
    ∧ (∀ s v1 rest, 32 ≤ s →
        execShiftOp 122 (s :: v1 :: rest) = .error "attempt to shift right with overflow")
    ∧ (∀ s p2 p1 rest, 64 ≤ s → s < 4294967296 →
        execShiftOp 121 (s :: p2 :: p1 :: rest) = .error "attempt to shift left with overflow")
    ∧ (∀ stack, execShiftOp 123 stack = .error "unknown instruction") := by
  refine ⟨fun s v1 rest => by simp [execShiftOp],
          fun s p2 p1 rest => by simp [execShiftOp],
          fun s v1 rest h => by simp [execShiftOp, h],
          fun s v1 rest h => by simp [execShiftOp, Nat.not_lt.mpr h],
          fun s v1 rest h => by simp [execShiftOp, Nat.not_lt.mpr h],
          fun s p2 p1 rest h hlt => ?_,
          fun stack => by simp [execShiftOp]⟩
  have hneg : ¬(0 ≤ toI32 s ∧ toI32 s < 64) := by
    rintro ⟨h0, h64⟩
    rcases Nat.lt_or_ge s 2147483648 with hs | hs
    · rw [toI32, if_pos hs] at h64
      omega
    · rw [toI32, if_neg (Nat.not_lt.mpr hs)] at h0
      omega
  simp [execShiftOp, hneg]

/-- Witness for the amended C6 theorem at concrete inputs. -/
theorem shift_masking_amended_witness :
    execShiftOp 120 (1 :: 3 :: []) = .ok (ofI32 (toI32 3 * 2 ^ 1) :: [])
    ∧ execShiftOp 120 (32 :: 3 :: []) = .error "attempt to shift left with overflow"
    ∧ execShiftOp 122 (32 :: 3 :: []) = .error "attempt to shift right with overflow"
    ∧ execShiftOp 121 (64 :: 0 :: 0 :: []) = .error "attempt to shift left with overflow" :=
  ⟨shift_masking_amended.2.2.1 1 3 [] (by decide),
   shift_masking_amended.2.2.2.1 32 3 [] (by decide),
   shift_masking_amended.2.2.2.2.1 32 3 [] (by decide),
   shift_masking_amended.2.2.2.2.2.1 64 0 0 [] (by decide) (by decide)⟩

/-- C5 counterexample: constant-pool tags 5 (Long), 4 (Float), 6 (Double),
11 (InterfaceMethodref) and 16 (MethodType) all hit the todo panic of
deserialize_constant_pool instead of producing a structured entry. -/
theorem unsupported_tags_abort_deserializer :
    deserialize_constant_pool (5 :: [0, 0, 0, 0, 0, 0, 0, 1]) = none
    ∧ deserialize_constant_pool (4 :: [63, 128, 0, 0]) = none
    ∧ deserialize_constant_pool (6 :: [0, 0, 0, 0, 0, 0, 0, 0]) = none
    ∧ deserialize_constant_pool (11 :: [0, 1, 0, 2]) = none
    ∧ deserialize_constant_pool (16 :: [0, 1]) = none := by decide

/-- C5 amended: deserialize_constant_pool accepts exactly the tags 1, 3,
7, 8, 9, 10, 12, 15 and 18, producing the corresponding structured entry,
and the constant-pool loop of deserialize_class_file produces exactly one
vector entry per iteration (count - 1 entries in total), with no two-slot
consumption for any tag. -/
theorem deserializer_accepted_tags :
    (∀ tag rest, (deserialize_constant_pool (tag :: rest)).isSome = true →
        tag ∈ [1, 3, 7, 8, 9, 10, 12, 15, 18])
    ∧ (∀ b1 b2 rest, deserialize_constant_pool (7 :: b1 :: b2 :: rest)
        = some (.constantClassInfo 7 (b1 * 256 + b2), rest))
    ∧ (∀ b1 b2 b3 b4 rest, deserialize_constant_pool (10 :: b1 :: b2 :: b3 :: b4 :: rest)
        = some (.constantMethodRefInfo 10 (b1 * 256 + b2) (b3 * 256 + b4), rest))
    ∧ (∀ n bytes out rest, deserializeConstantPoolList n bytes = some (out, rest) →
        out.length = n) := by
  refine ⟨?_, fun b1 b2 rest => by simp [deserialize_constant_pool, readU8, readU16],
          fun b1 b2 b3 b4 rest => by simp [deserialize_constant_pool, readU8, readU16],
          ?_⟩
  · intro tag rest h
    by_contra hmem
    simp only [List.mem_cons, List.not_mem_nil, or_false, not_or] at hmem
    obtain ⟨h1, h3, h7, h8, h9, h10, h12, h15, h18⟩ := hmem
    simp [deserialize_constant_pool, readU8, h1, h3, h7, h8, h9, h10, h12, h15, h18] at h
  · intro n
    induction n with
    | zero =>
      intro bytes out rest h
      simp only [deserializeConstantPoolList] at h
      cases h
      rfl
    | succ m ih =>
      intro bytes out rest h
      simp only [deserializeConstantPoolList] at h
      cases hd : deserialize_constant_pool bytes with
      | none => rw [hd] at h; cases h
      | some p =>
        obtain ⟨cp, r⟩ := p
        rw [hd] at h
        simp only at h
        cases hl : deserializeConstantPoolList m r with
        | none => rw [hl] at h; cases h
        | some q =>
          obtain ⟨cps, r2⟩ := q
          rw [hl] at h
          simp only at h
          cases h
          have := ih r cps rest hl
          simp [this]

/-- Witness for the amended C5 theorem at concrete inputs. -/
theorem deserializer_accepted_tags_witness :
    (3 : Nat) ∈ [1, 3, 7, 8, 9, 10, 12, 15, 18]
    ∧ deserialize_constant_pool (7 :: 0 :: 2 :: []) = some (.constantClassInfo 7 2, [])
    ∧ ([CPInfo.constantClassInfo 7 2, CPInfo.constantStringInfo 8 1]).length = 2 :=
  ⟨deserializer_accepted_tags.1 3 [0, 0, 0, 5] (by decide),
   deserializer_accepted_tags.2.1 0 2 [],
   deserializer_accepted_tags.2.2.2 2 [7, 0, 2, 8, 0, 1]
     [CPInfo.constantClassInfo 7 2, CPInfo.constantStringInfo 8 1] [] (by decide)⟩

/-- C8 counterexample: freturn (opcode 0xae) has no interpreter arm and
fails as an unknown instruction even with an invoker frame present (so
it does not transfer the value 7 to the invoker), and ireturn executed
in the last remaining frame fails on the frame-index underflow instead
of terminating the thread. -/
theorem freturn_missing_and_last_frame_value_return_fails :
    execReturnOp 174 [⟨[], [7], [], none, 0⟩, ⟨[], [], [], none, 0⟩]
      = .fail "unknown instruction"
    ∧ execReturnOp 174 [⟨[], [7], [], none, 0⟩, ⟨[], [], [], none, 0⟩]
        ≠ .next [⟨[], [7], [], none, 0⟩]
    ∧ execReturnOp 172 [⟨[], [7], [], none, 0⟩]
        = .fail "attempt to subtract with overflow" := by decide

/-- C8 amended: with an invoker frame present, ireturn and areturn pop one
cell and lreturn and dreturn pop two cells from the current frame, push
them onto the invoker operand stack and drop the current frame; executed
in the last remaining frame those four opcodes fail on the frame-index
underflow; freturn is not implemented; return pops nothing, terminates
the thread when the current frame is the last one, and otherwise just
drops the current frame. -/
theorem return_family_amended :
    (∀ cur invoker below v s, cur.operand_stack = v :: s →
        execReturnOp 172 (cur :: invoker :: below)
          = .next ({ invoker with operand_stack := v :: invoker.operand_stack } :: below)
        ∧ execReturnOp 176 (cur :: invoker :: below)
          = .next ({ invoker with operand_stack := v :: invoker.operand_stack } :: below))
    ∧ (∀ cur invoker below v2 v1 s, cur.operand_stack = v2 :: v1 :: s →
        execReturnOp 173 (cur :: invoker :: below)
          = .next ({ invoker with
              operand_stack := v2 :: v1 :: invoker.operand_stack } :: below)
        ∧ execReturnOp 175 (cur :: invoker :: below)
          = .next ({ invoker with
              operand_stack := v2 :: v1 :: invoker.operand_stack } :: below))
    ∧ (∀ cur v s, cur.operand_stack = v :: s →
        execReturnOp 172 [cur] = .fail "attempt to subtract with overflow"
        ∧ execReturnOp 176 [cur] = .fail "attempt to subtract with overflow")
    ∧ (∀ cur v2 v1 s, cur.operand_stack = v2 :: v1 :: s →
        execReturnOp 173 [cur] = .fail "attempt to subtract with overflow"
        ∧ execReturnOp 175 [cur] = .fail "attempt to subtract with overflow")
    ∧ (∀ cur, execReturnOp 177 [cur] = .halt [cur])
    ∧ (∀ cur f rest, execReturnOp 177 (cur :: f :: rest) = .next (f :: rest))
    ∧ (∀ cur rest, execReturnOp 174 (cur :: rest) = .fail "unknown instruction") := by
  refine ⟨fun cur invoker below v s h => ⟨by simp [execReturnOp, h], by simp [execReturnOp, h]⟩,
          fun cur invoker below v2 v1 s h => ⟨by simp [execReturnOp, h], by simp [execReturnOp, h]⟩,
          fun cur v s h => ⟨by simp [execReturnOp, h], by simp [execReturnOp, h]⟩,
          fun cur v2 v1 s h => ⟨by simp [execReturnOp, h], by simp [execReturnOp, h]⟩,
          fun cur => by simp [execReturnOp],
          fun cur f rest => by simp [execReturnOp],
          fun cur rest => by simp [execReturnOp]⟩

/-- Witness for the amended C8 theorem at concrete inputs. -/
theorem return_family_amended_witness :
    execReturnOp 172 [⟨[], [7], [], none, 0⟩, ⟨[], [], [], none, 0⟩]
      = .next [⟨[], [7], [], none, 0⟩]
    ∧ execReturnOp 173 [⟨[], [9, 8], [], none, 0⟩, ⟨[], [], [], none, 0⟩]
      = .next [⟨[], [9, 8], [], none, 0⟩]
    ∧ execReturnOp 176 [⟨[], [7], [], none, 0⟩]
      = .fail "attempt to subtract with overflow"
    ∧ execReturnOp 177 [⟨[], [], [], none, 0⟩] = .halt [⟨[], [], [], none, 0⟩] :=
  ⟨(return_family_amended.1 ⟨[], [7], [], none, 0⟩ ⟨[], [], [], none, 0⟩ [] 7 [] rfl).1,
   (return_family_amended.2.1 ⟨[], [9, 8], [], none, 0⟩ ⟨[], [], [], none, 0⟩ [] 9 8 [] rfl).1,
   (return_family_amended.2.2.1 ⟨[], [7], [], none, 0⟩ 7 [] rfl).2,
   return_family_amended.2.2.2.2.1 ⟨[], [], [], none, 0⟩⟩

/-- The handler-search loop returns the first entry satisfying the
exact-match predicate, provided every entry of the table carries a
nonzero catch_type resolving to a Class constant. -/
theorem findHandlerLoop_eq_find (pool : List Constant) (ic : Nat) (exName : String) :
    ∀ table : List ExceptionTableItem,
      (∀ item ∈ table, item.catch_type ≠ 0
          ∧ ∃ n, pool.get? (item.catch_type - 1) = some (Constant.classInfo n)) →
      findHandlerLoop pool ic exName table
        = .ok ((table.find? (claimEntryMatches pool ic exName)).map
            ExceptionTableItem.handler_pc) := by
  intro table
  induction table with
  | nil => intro _; rfl
  | cons item rest ih =>
    intro hwf
    obtain ⟨hct, n, hn⟩ := hwf item (List.mem_cons_self item rest)
    have hrest := fun i hi => hwf i (List.mem_cons_of_mem item hi)
    simp only [findHandlerLoop]
    rw [if_neg hct, hn]
    simp only [Option.map_some', constantAsClass]
    by_cases hc : item.start_pc ≤ ic ∧ ic < item.end_pc ∧ n = exName
    · rw [if_pos hc]
      rw [List.find?_cons_of_pos]
      · rfl
      · simp only [claimEntryMatches, hn, Option.some_bind, constantAsClass,
          Option.some_inj, decide_eq_true_eq]
        exact hc
    · rw [if_neg hc]
      rw [List.find?_cons_of_neg]
      · exact ih hrest
      · simp only [claimEntryMatches, hn, Option.some_bind, constantAsClass,
          Option.some_inj, decide_eq_true_eq]
        exact hc

/-- C1 (amended): entered on an exception object whose descriptor names a
class, and with every exception-table entry of the current frame carrying
a nonzero catch_type that resolves to a Class constant, handle_exception
catches exactly at the FIRST entry whose range covers the instruction
counter and whose catch_type names EXACTLY the runtime class of the
exception object (no ancestor matching, no catch-all): on such a match
the instruction counter becomes handler_pc, the reference is pushed onto
the operand stack, and is_throwing is left unchanged; when no entry
matches, the exception propagates (or ends the thread run in the last
frame). -/
theorem handle_exception_exact_match_characterization
    (t : Thread) (heap : List HeapItem) (objectref : Nat)
    (current_frame : Frame) (restFrames : List Frame) (heap_item : HeapItem)
    (table : List ExceptionTableItem) (exName : String)
    (hstack : t.jvm_stack = current_frame :: restFrames)
    (hheap : heap.get? objectref = some heap_item)
    (hdesc : (parse_field_type heap_item.field_descriptor.data).bind
        fieldTypeAsClassInstance = some exName)
    (htable : current_frame.exception_table = some table)
    (hwf : ∀ item ∈ table, item.catch_type ≠ 0
        ∧ ∃ n, current_frame.constant_pool.get? (item.catch_type - 1)
            = some (Constant.classInfo n)) :
    (∀ e, table.find? (claimEntryMatches current_frame.constant_pool
          current_frame.instruction_counter exName) = some e →
        handle_exception t heap objectref
          = .ok { t with jvm_stack :=
              { current_frame with
                instruction_counter := e.handler_pc,
                operand_stack := objectref :: current_frame.operand_stack }
                :: restFrames })
    ∧ (table.find? (claimEntryMatches current_frame.constant_pool
          current_frame.instruction_counter exName) = none →
        handle_exception t heap objectref
          = match restFrames with
            | [] => .error "nowhere to go to :("
            | invoker :: below =>
              .ok { jvm_stack := { invoker with
                      operand_stack := objectref :: invoker.operand_stack } :: below,
                    is_throwing := true }) := by
  obtain ⟨ft, hft, hftc⟩ := Option.bind_eq_some.mp hdesc
  have hloop := findHandlerLoop_eq_find current_frame.constant_pool
      current_frame.instruction_counter exName table hwf
  constructor
  · intro e he
    simp only [handle_exception, hstack, hheap, hft, hftc, htable, hloop, he,
      Option.map_some']
  · intro he
    cases restFrames with
    | nil =>
      simp only [handle_exception, hstack, hheap, hft, hftc, htable, hloop, he,
        Option.map_none']
    | cons invoker below =>
      simp only [handle_exception, hstack, hheap, hft, hftc, htable, hloop, he,
        Option.map_none']

/-- C1 counterexample: first, an entry with catch_type 0 (the claimed
catch-all) makes handle_exception abort on the usize underflow instead of
catching; second, on an exact-name match with is_throwing set (the
propagation path) the flag stays set rather than being cleared, so the
resulting thread differs from the claimed one exactly in is_throwing. -/
theorem handle_exception_counterexample :
    handle_exception ⟨[⟨[], [], [], some [⟨0, 10, 5, 0⟩], 1⟩], false⟩
        [⟨"null", []⟩, ⟨"Ljava/lang/ArithmeticException;", []⟩] 1
      = .error "attempt to subtract with overflow"
    ∧ handle_exception ⟨[⟨[], [], [Constant.classInfo "java/lang/ArithmeticException"],
          some [⟨0, 10, 5, 1⟩], 1⟩], true⟩
        [⟨"null", []⟩, ⟨"Ljava/lang/ArithmeticException;", []⟩] 1
      = .ok ⟨[⟨[], [1], [Constant.classInfo "java/lang/ArithmeticException"],
          some [⟨0, 10, 5, 1⟩], 5⟩], true⟩
    ∧ (⟨[⟨[], [1], [Constant.classInfo "java/lang/ArithmeticException"],
          some [⟨0, 10, 5, 1⟩], 5⟩], true⟩ : Thread)
        ≠ ⟨[⟨[], [1], [Constant.classInfo "java/lang/ArithmeticException"],
          some [⟨0, 10, 5, 1⟩], 5⟩], false⟩ := by decide

/-- Witness for the amended C1 theorem at a concrete input. -/
theorem handle_exception_exact_match_witness :
    handle_exception ⟨[⟨[], [], [Constant.classInfo "X"], some [⟨0, 10, 5, 1⟩], 1⟩], false⟩
        [⟨"null", []⟩, ⟨"LX;", []⟩] 1
      = .ok ⟨[⟨[], [1], [Constant.classInfo "X"], some [⟨0, 10, 5, 1⟩], 5⟩], false⟩ :=
  (handle_exception_exact_match_characterization
      ⟨[⟨[], [], [Constant.classInfo "X"], some [⟨0, 10, 5, 1⟩], 1⟩], false⟩
      [⟨"null", []⟩, ⟨"LX;", []⟩] 1
      ⟨[], [], [Constant.classInfo "X"], some [⟨0, 10, 5, 1⟩], 1⟩ []
      ⟨"LX;", []⟩ [⟨0, 10, 5, 1⟩] "X"
      rfl rfl (by decide) rfl
      (by intro item hi
          simp only [List.mem_singleton] at hi
          subst hi
          exact ⟨by decide, "X", rfl⟩)).1
    ⟨0, 10, 5, 1⟩ (by decide)

/-- C7: when the handler walk of handle_exception matches no entry, a
thread whose current frame is the only frame ends its run with the
unhandled-exception error; otherwise the current frame is popped, the
is_throwing flag is set, the exception reference is pushed onto the
invoker frame operand stack, and the next loop iteration pops exactly
that reference again and re-enters handle_exception on it. -/
theorem handle_exception_no_match_propagates
    (t : Thread) (heap : List HeapItem) (objectref : Nat)
    (current_frame : Frame) (restFrames : List Frame) (heap_item : HeapItem)
    (table : List ExceptionTableItem) (exName : String)
    (hstack : t.jvm_stack = current_frame :: restFrames)
    (hheap : heap.get? objectref = some heap_item)
    (hdesc : (parse_field_type heap_item.field_descriptor.data).bind
        fieldTypeAsClassInstance = some exName)
    (htable : current_frame.exception_table = some table)
    (hnomatch : findHandlerLoop current_frame.constant_pool
        current_frame.instruction_counter exName table = .ok none) :
    (restFrames = [] → handle_exception t heap objectref = .error "nowhere to go to :(")
    ∧ (∀ invoker below, restFrames = invoker :: below →
        handle_exception t heap objectref
          = .ok ⟨{ invoker with operand_stack := objectref :: invoker.operand_stack }
              :: below, true⟩
        ∧ runLoopThrowDispatch
            ⟨{ invoker with operand_stack := objectref :: invoker.operand_stack }
              :: below, true⟩
          = .ok (some (objectref, ⟨invoker :: below, true⟩))) := by
  obtain ⟨ft, hft, hftc⟩ := Option.bind_eq_some.mp hdesc
  constructor
  · intro hr
    simp only [handle_exception, hstack, hheap, hft, hftc, htable, hnomatch, hr]
  · intro invoker below hr
    constructor
    · simp only [handle_exception, hstack, hheap, hft, hftc, htable, hnomatch, hr]
    · rfl

/-- Witness for the C7 theorem at concrete inputs: an empty exception
table never matches, so with one frame the run errors, and with two
frames the exception moves to the caller and is picked up again by the
loop dispatch. -/
theorem handle_exception_no_match_propagates_witness :
    handle_exception ⟨[⟨[], [], [], some [], 3⟩], true⟩
        [⟨"null", []⟩, ⟨"LX;", []⟩] 1
      = .error "nowhere to go to :("
    ∧ handle_exception ⟨[⟨[], [], [], some [], 3⟩, ⟨[], [], [], none, 7⟩], true⟩
        [⟨"null", []⟩, ⟨"LX;", []⟩] 1
      = .ok ⟨[⟨[], [1], [], none, 7⟩], true⟩
    ∧ runLoopThrowDispatch ⟨[⟨[], [1], [], none, 7⟩], true⟩
      = .ok (some (1, ⟨[⟨[], [], [], none, 7⟩], true⟩)) :=
  ⟨(handle_exception_no_match_propagates
      ⟨[⟨[], [], [], some [], 3⟩], true⟩ [⟨"null", []⟩, ⟨"LX;", []⟩] 1
      ⟨[], [], [], some [], 3⟩ [] ⟨"LX;", []⟩ [] "X"
      rfl rfl (by decide) rfl rfl).1 rfl,
   ((handle_exception_no_match_propagates
      ⟨[⟨[], [], [], some [], 3⟩, ⟨[], [], [], none, 7⟩], true⟩
      [⟨"null", []⟩, ⟨"LX;", []⟩] 1
      ⟨[], [], [], some [], 3⟩ [⟨[], [], [], none, 7⟩] ⟨"LX;", []⟩ [] "X"
      rfl rfl (by decide) rfl rfl).2 ⟨[], [], [], none, 7⟩ [] rfl).1,
   ((handle_exception_no_match_propagates
      ⟨[⟨[], [], [], some [], 3⟩, ⟨[], [], [], none, 7⟩], true⟩
      [⟨"null", []⟩, ⟨"LX;", []⟩] 1
      ⟨[], [], [], some [], 3⟩ [⟨[], [], [], none, 7⟩] ⟨"LX;", []⟩ [] "X"
      rfl rfl (by decide) rfl rfl).2 ⟨[], [], [], none, 7⟩ [] rfl).2⟩

/-- The initialization invariant: no class occurs twice in the clinit log,
and every logged class carries the initialized flag.  The eager flag set
of init_class is exactly what makes this invariant inductive. -/
theorem init_class_model_inv (f : String → List String) :
    ∀ (fuel : Nat) (name : String) (s : InitState),
      s.clinit_log.Nodup ∧ (∀ c ∈ s.clinit_log, c ∈ s.initialized) →
      (init_class_model f fuel name s).clinit_log.Nodup
        ∧ ∀ c ∈ (init_class_model f fuel name s).clinit_log,
            c ∈ (init_class_model f fuel name s).initialized := by
  intro fuel
  induction fuel with
  | zero =>
    intro name s h
    simpa [init_class_model] using h
  | succ n ih =>
    intro name s h
    rw [init_class_model]
    by_cases hm : name ∈ s.initialized
    · rw [if_pos hm]
      exact h
    · rw [if_neg hm]
      have h1 : (s.clinit_log ++ [name]).Nodup
          ∧ ∀ c ∈ s.clinit_log ++ [name], c ∈ name :: s.initialized := by
        constructor
        · rw [List.nodup_append]
          refine ⟨h.1, List.nodup_singleton name, ?_⟩
          intro a ha hb
          rw [List.mem_singleton] at hb
          subst hb
          exact hm (h.2 a ha)
        · intro c hc
          rcases List.mem_append.mp hc with hc | hc
          · exact List.mem_cons_of_mem name (h.2 c hc)
          · rw [List.mem_singleton] at hc
            subst hc
            exact List.mem_cons_self c s.initialized
      have hfold : ∀ (l : List String) (st : InitState),
          st.clinit_log.Nodup ∧ (∀ c ∈ st.clinit_log, c ∈ st.initialized) →
          (l.foldl (fun acc dep => init_class_model f n dep acc) st).clinit_log.Nodup
            ∧ ∀ c ∈ (l.foldl (fun acc dep => init_class_model f n dep acc) st).clinit_log,
                c ∈ (l.foldl (fun acc dep => init_class_model f n dep acc) st).initialized := by
        intro l
        induction l with
        | nil =>
          intro st hst
          simpa using hst
        | cons d ds ihl =>
          intro st hst
          exact ihl (init_class_model f n d st) (ih d st hst)
      exact hfold (f name) ⟨name :: s.initialized, s.clinit_log ++ [name]⟩ h1

/-- C4: starting from a run with no class initialized, every class enters
its clinit at most once, whatever ensure_class triggers the clinit bodies
perform and however deep the recursion goes; and any init_class or
ensure_class call on a class already carrying the initialized flag leaves
the state unchanged (no clinit re-entry). -/
theorem clinit_at_most_once (f : String → List String) (fuel : Nat) (name : String) :
    (∀ c, (init_class_model f fuel name ⟨[], []⟩).clinit_log.count c ≤ 1)
    ∧ (∀ (fuel2 : Nat) (s : InitState), name ∈ s.initialized →
        init_class_model f fuel2 name s = s
        ∧ ensure_class_model f fuel2 name s = s) := by
  constructor
  · intro c
    have h := init_class_model_inv f fuel name ⟨[], []⟩
        ⟨List.nodup_nil, by intro c hc; cases hc⟩
    exact List.nodup_iff_count_le_one.mp h.1 c
  · intro fuel2 s hm
    constructor
    · cases fuel2 with
      | zero => rfl
      | succ n =>
        rw [init_class_model, if_pos hm]
    · rw [ensure_class_model, if_pos hm]

/-- Witness for the C4 theorem at concrete inputs. -/
theorem clinit_at_most_once_witness :
    (init_class_model (fun _ => ["B"]) 2 "A" ⟨[], []⟩).clinit_log.count "A" ≤ 1
    ∧ init_class_model (fun _ => ["B"]) 2 "A" ⟨["A"], ["A"]⟩ = ⟨["A"], ["A"]⟩
    ∧ ensure_class_model (fun _ => ["B"]) 2 "A" ⟨["A"], ["A"]⟩ = ⟨["A"], ["A"]⟩ :=
  ⟨(clinit_at_most_once (fun _ => ["B"]) 2 "A").1 "A",
   ((clinit_at_most_once (fun _ => ["B"]) 2 "A").2 2 ⟨["A"], ["A"]⟩ (by decide)).1,
   ((clinit_at_most_once (fun _ => ["B"]) 2 "A").2 2 ⟨["A"], ["A"]⟩ (by decide)).2⟩
